import Mathlib

/-!
Verification development for the MKTools SNMP device-discovery tool
(`src/main.py`).  The Python source is shallowly embedded: pure helpers
become Lean functions, the network (pysnmp GET/SET exchanges, pythonping
echo requests) is passed in as an explicit environment, Python dictionaries
become ordered association lists with Python's insert-or-overwrite update,
and operations that can raise (`ZeroDivisionError` in `progressBar`,
`KeyError` in `get_device_by_serial`, address parsing) return `Except`.
-/

namespace MKTools

/-! ## Python value primitives used by `cast` (src/main.py lines 112-132) -/

/-- Characters removed by Python's default `str.strip()` / numeric-literal
whitespace stripping. -/
def isPySpace (c : Char) : Bool :=
  c == ' ' || c == '\t' || c == '\n' || c == '\r' || c == '\x0b' || c == '\x0c'

/-- Strip leading and trailing whitespace from a character list. -/
def stripChars (l : List Char) : List Char :=
  ((l.dropWhile isPySpace).reverse.dropWhile isPySpace).reverse

/-- Value of a list of decimal digit characters. -/
def digitsToNat (l : List Char) : Nat :=
  l.foldl (fun n c => 10 * n + (c.toNat - 48)) 0

/-- A non-empty, all-decimal-digit character list. -/
def allDigits (l : List Char) : Bool :=
  !l.isEmpty && l.all Char.isDigit

/-- Python `int(str)`: optional surrounding whitespace, optional sign,
then a non-empty digit string; anything else raises `ValueError`
(modelled as `none`). -/
def pyIntOfChars (l : List Char) : Option Int :=
  match stripChars l with
  | '+' :: rest => if allDigits rest then some (Int.ofNat (digitsToNat rest)) else none
  | '-' :: rest => if allDigits rest then some (-(Int.ofNat (digitsToNat rest))) else none
  | rest => if allDigits rest then some (Int.ofNat (digitsToNat rest)) else none

def pyIntOfString (s : String) : Option Int := pyIntOfChars s.data

/-- Split a character list on a separator character, Python `str.split(sep)`
(the empty list yields one empty group). -/
def splitOnChar (sep : Char) : List Char → List (List Char)
  | [] => [[]]
  | c :: rest =>
    let groups := splitOnChar sep rest
    if c == sep then [] :: groups
    else
      match groups with
      | [] => [[c]]
      | g :: gs => (c :: g) :: gs

/-- Mantissa of a Python float literal: `digits`, `digits.`, `digits.digits`
or `.digits`. -/
def mantissaOk (l : List Char) : Bool :=
  match splitOnChar '.' l with
  | [intpart] => allDigits intpart
  | [intpart, fracpart] =>
      (allDigits intpart && (fracpart.isEmpty || allDigits fracpart)) ||
      (intpart.isEmpty && allDigits fracpart)
  | _ => false

/-- Exponent part of a Python float literal: optional sign then digits. -/
def expOk (l : List Char) : Bool :=
  match l with
  | '+' :: rest => allDigits rest
  | '-' :: rest => allDigits rest
  | rest => allDigits rest

/-- Unsigned Python float literal: mantissa with at most one `e`/`E`
exponent marker. -/
def unsignedFloatOk (l : List Char) : Bool :=
  match splitOnChar 'e' (l.map Char.toLower) with
  | [m] => mantissaOk m
  | [m, ex] => mantissaOk m && expOk ex
  | _ => false

/-- The special float spellings `inf`, `infinity`, `nan` (case-insensitive). -/
def specialFloatOk (l : List Char) : Bool :=
  let low := l.map Char.toLower
  low == ['i', 'n', 'f'] || low == ['i', 'n', 'f', 'i', 'n', 'i', 't', 'y'] ||
    low == ['n', 'a', 'n']

/-- Python `float(str)` succeeds: optional whitespace and sign, then a float
literal or special spelling; otherwise `ValueError`. -/
def pyFloatOk (s : String) : Bool :=
  match stripChars s.data with
  | '+' :: rest => specialFloatOk rest || unsignedFloatOk rest
  | '-' :: rest => specialFloatOk rest || unsignedFloatOk rest
  | rest => specialFloatOk rest || unsignedFloatOk rest

/-! ## Raw protocol values and the cast chain -/

/-- A raw value returned in a protocol var-bind (`var_bind[1]`): an
integer-typed value (pysnmp `Integer32`-like, `int()` succeeds directly),
an octet-string-typed value (`int()`/`float()` convert its textual
content or raise `ValueError`), or a network-address-typed value of four
octets (`int()`/`float()` raise, `IpAddress.prettyPrint` applies). -/
inductive Raw
  | intVal (n : Int)
  | strVal (s : String)
  | ipAddr (a b c d : Nat)
deriving DecidableEq, Repr

/-- Python `int(value)` on a raw protocol value (`none` = raises
`ValueError`/`TypeError`, which `cast` catches). -/
def pyInt : Raw → Option Int
  | .intVal n => some n
  | .strVal s => pyIntOfString s
  | .ipAddr _ _ _ _ => none

/-- Python `float(value)` on a raw protocol value; the payload records the
literal the float was read from (the numeric float itself is never
inspected by the program). -/
def pyFloat : Raw → Option String
  | .intVal n => some (toString n)
  | .strVal s => if pyFloatOk s then some s else none
  | .ipAddr _ _ _ _ => none

/-- Dotted-decimal rendering of four octets. -/
def dottedQuad (a b c d : Nat) : String :=
  toString a ++ "." ++ toString b ++ "." ++ toString c ++ "." ++ toString d

/-- `rfc1902.IpAddress.prettyPrint(value)` (src/main.py line 129): renders a
network-address-typed value in dotted decimal; on any other raw value it
raises (modelled as `none`). -/
def prettyPrintIp : Raw → Option String
  | .ipAddr a b c d => some (dottedQuad a b c d)
  | _ => none

/-- Python `str(value)`: the textual rendering of a raw value; never fails. -/
def pyStr : Raw → String
  | .intVal n => toString n
  | .strVal s => s
  | .ipAddr a b c d => dottedQuad a b c d

/-- The tagged result of `cast`: exactly one of the four semantic types. -/
inductive CastedValue
  | Integer (n : Int)
  | Float (litRepr : String)
  | FormattedAddress (s : String)
  | Text (s : String)
deriving DecidableEq, Repr

/-- `cast` (src/main.py lines 112-132): try `int(value)`; on
`ValueError`/`TypeError` try `float(value)`; then
`rfc1902.IpAddress.prettyPrint(value)`; finally fall back to
`str(value)`.  First success wins. -/
def cast (value : Raw) : CastedValue :=
  match pyInt value with
  | some n => .Integer n
  | none =>
    match pyFloat value with
    | some f => .Float f
    | none =>
      match prettyPrintIp value with
      | some s => .FormattedAddress s
      | none => .Text (pyStr value)

/-- C1: the attribute cast operation is total — for every raw input it
returns exactly one of Integer, Float, FormattedAddress, or Text, it
terminates in Text as the final fallback when every parse fails, and
(being a total function into `CastedValue`, all parse failures having
been caught) it never propagates an exception to its caller. -/
theorem cast_total (v : Raw) :
    ((∃ n, cast v = .Integer n) ∨ (∃ f, cast v = .Float f) ∨
      (∃ s, cast v = .FormattedAddress s) ∨ (∃ s, cast v = .Text s)) ∧
    (pyInt v = none → pyFloat v = none → prettyPrintIp v = none →
      cast v = .Text (pyStr v)) := by
  constructor
  · cases h1 : pyInt v with
    | some n => exact Or.inl ⟨n, by simp [cast, h1]⟩
    | none =>
      cases h2 : pyFloat v with
      | some f => exact Or.inr (Or.inl ⟨f, by simp [cast, h1, h2]⟩)
      | none =>
        cases h3 : prettyPrintIp v with
        | some s => exact Or.inr (Or.inr (Or.inl ⟨s, by simp [cast, h1, h2, h3]⟩))
        | none => exact Or.inr (Or.inr (Or.inr ⟨pyStr v, by simp [cast, h1, h2, h3]⟩))
  · intro h1 h2 h3
    simp [cast, h1, h2, h3]

/-- Witness for C1 at the concrete input `"hello"`: all three parses fail
and the chain terminates in `Text "hello"`. -/
theorem cast_total_witness :
    pyInt (Raw.strVal "hello") = none ∧ pyFloat (Raw.strVal "hello") = none ∧
      prettyPrintIp (Raw.strVal "hello") = none ∧
      cast (Raw.strVal "hello") = .Text "hello" :=
  ⟨by decide, by decide, rfl, (cast_total (Raw.strVal "hello")).2 (by decide) (by decide) rfl⟩

/-- C6: the cast chain tries integer, then float, then dotted-decimal
formatted address, then textual fallback, in that strict order with first
success winning; hence an input parseable as a signed integer is cast to
the Integer variant and never to the Float variant. -/
theorem cast_order (v : Raw) :
    (∀ n, pyInt v = some n → cast v = .Integer n) ∧
    (pyInt v = none → ∀ f, pyFloat v = some f → cast v = .Float f) ∧
    (pyInt v = none → pyFloat v = none →
      ∀ s, prettyPrintIp v = some s → cast v = .FormattedAddress s) ∧
    (pyInt v = none → pyFloat v = none → prettyPrintIp v = none →
      cast v = .Text (pyStr v)) ∧
    (∀ n, pyInt v = some n → ∀ f, cast v ≠ .Float f) := by
  refine ⟨fun n h1 => by simp [cast, h1],
    fun h1 f h2 => by simp [cast, h1, h2],
    fun h1 h2 s h3 => by simp [cast, h1, h2, h3],
    fun h1 h2 h3 => by simp [cast, h1, h2, h3],
    fun n h1 f => by simp [cast, h1]⟩

/-- Witness for C6 at the concrete input `"42"`: the integer parse succeeds,
so the result is `Integer 42` and in particular not a Float. -/
theorem cast_order_witness :
    pyInt (Raw.strVal "42") = some 42 ∧
      cast (Raw.strVal "42") = .Integer 42 ∧
      cast (Raw.strVal "42") ≠ .Float "42" :=
  ⟨by decide, (cast_order (Raw.strVal "42")).1 42 (by decide),
    (cast_order (Raw.strVal "42")).2.2.2.2 42 (by decide) "42"⟩

/-! ## Device records (Python dicts) and the SNMP exchange -/

/-- A device record: a Python dict keyed by identifier strings, kept in
insertion order. -/
abbrev DeviceRecord := List (String × CastedValue)

/-- Python dict assignment `d[k] = v`: overwrite the (unique, here: first)
binding of `k` in place, or append a new binding at the end. -/
def dictSet {α : Type} (d : List (String × α)) (k : String) (v : α) : List (String × α) :=
  match d with
  | [] => [(k, v)]
  | (k', v') :: rest => if k' = k then (k, v) :: rest else (k', v') :: dictSet rest k v

/-- Python dict read `d[k]`: the binding of `k`, `none` when `k` is absent
(in Python a `KeyError`). -/
def dictLookup {α : Type} (d : List (String × α)) (k : String) : Option α :=
  match d with
  | [] => none
  | (k', v') :: rest => if k' = k then some v' else dictLookup rest k

theorem dictLookup_dictSet {α : Type} (d : List (String × α)) (k : String) (v : α) :
    dictLookup (dictSet d k v) k = some v := by
  induction d with
  | nil => simp [dictSet, dictLookup]
  | cons kv rest ih =>
    obtain ⟨k', v'⟩ := kv
    by_cases h : k' = k
    · simp [dictSet, dictLookup, h]
    · simp [dictSet, dictLookup, h, ih]

theorem dictSet_ne_nil {α : Type} (d : List (String × α)) (k : String) (v : α) :
    dictSet d k v ≠ [] := by
  cases d with
  | nil => simp [dictSet]
  | cons kv rest =>
    obtain ⟨k', v'⟩ := kv
    by_cases h : k' = k <;> simp [dictSet, h]

/-- The outcome of one `next(handler)` on a pysnmp command generator:
either a response tuple `(error_indication, error_status, error_index,
var_binds)` (the error index is never inspected and is omitted), or a
raised exception, which `fetch` catches. -/
inductive SnmpOutcome
  | resp (errorIndication : Option String) (errorStatus : Nat)
      (varBinds : List (String × Raw))
  | exn (msg : String)

/-- The `items` dict built from the var-binds of an accepted response:
`items[str(var_bind[0])] = cast(var_bind[1])` in order. -/
def buildItems (varBinds : List (String × Raw)) : DeviceRecord :=
  varBinds.foldl (fun items vb => dictSet items vb.1 (cast vb.2)) []

/-- One iteration of `fetch`'s loop body: accept the response (replacing
`result` with the freshly built `items`) only when the error indication is
absent and the error status is zero; otherwise (including a raised
exception, which is caught and printed) keep `result` unchanged. -/
def fetchStep (result : DeviceRecord) (o : SnmpOutcome) : DeviceRecord :=
  match o with
  | .exn _ => result
  | .resp ei es vbs => if ei = none ∧ es = 0 then buildItems vbs else result

/-- The loop of `fetch` (src/main.py lines 147-159): `count` iterations over
the stream of `next(handler)` outcomes; an exhausted stream raises
`StopIteration`, which the `except` clause also catches, leaving `result`
unchanged. -/
def fetchLoop : DeviceRecord → List SnmpOutcome → Nat → DeviceRecord
  | result, _, 0 => result
  | result, [], n + 1 => fetchLoop result [] n
  | result, o :: rest, n + 1 => fetchLoop (fetchStep result o) rest n

/-- `fetch` (src/main.py lines 135-160): starts from the empty dict, runs
`count` iterations, and returns the last accepted response's items (or the
empty dict).  Errors are printed, never re-raised. -/
def fetch (handler : List SnmpOutcome) (count : Nat) : DeviceRecord :=
  fetchLoop [] handler count

/-- `construct_object_types` (src/main.py lines 98-102): wraps each OID into
an ObjectType, in order (the wrapper itself carries no further data here). -/
def construct_object_types (list_of_oids : List String) : List String :=
  list_of_oids.foldl (fun object_types oid => object_types ++ [oid]) []

/-- `construct_value_pairs` (src/main.py lines 105-109): turns the dict of
OID/value pairs into the ordered list of ObjectTypes for a SET request. -/
def construct_value_pairs (list_of_pairs : List (String × Raw)) : List (String × Raw) :=
  list_of_pairs.foldl (fun pairs kv => pairs ++ [kv]) []

theorem foldl_append_singleton {α : Type} (l acc : List α) :
    l.foldl (fun a x => a ++ [x]) acc = acc ++ l := by
  induction l generalizing acc with
  | nil => simp
  | cons x xs ih => simp [List.foldl, ih]

/-! ## The attribute map (src/main.py lines 24-36) and the CSV header -/

def model : String := ".1.3.6.1.2.1.1.1.0"
def serial : String := ".1.3.6.1.2.1.43.5.1.1.17.1"
def location : String := ".1.3.6.1.2.1.1.6.0"
def firmware : String := ".1.3.6.1.4.1.18334.1.1.1.5.5.1.1.3.1"
def hostname : String := ".1.3.6.1.4.1.18334.1.1.2.1.5.7.1.1.1.12.1"
def domain : String := ".1.3.6.1.4.1.18334.1.1.2.1.5.7.1.1.1.13.1"
def ip_address : String := ".1.3.6.1.4.1.18334.1.1.2.1.5.7.1.1.1.3.1"
def subnet : String := ".1.3.6.1.4.1.18334.1.1.2.1.5.7.1.1.1.4.1"
def gateway : String := ".1.3.6.1.4.1.18334.1.1.2.1.5.7.1.1.1.5.1"
def primary_dns : String := ".1.3.6.1.4.1.18334.1.1.2.1.5.7.1.2.1.3.1.1"
def secondary_dns : String := ".1.3.6.1.4.1.18334.1.1.2.1.5.7.1.2.1.3.1.2"

/-- The `oids` list built in `snmp_get` (src/main.py line 36). -/
def oids : List String :=
  [model, serial, location, firmware, hostname, domain, ip_address, subnet,
    gateway, primary_dns, secondary_dns]

/-- The attribute map: semantic field name (the local variable naming each
OID in `snmp_get`) paired with its protocol identifier, in source order. -/
def attributeMap : List (String × String) :=
  [("model", model), ("serial", serial), ("location", location),
    ("firmware", firmware), ("hostname", hostname), ("domain", domain),
    ("ip_address", ip_address), ("subnet", subnet), ("gateway", gateway),
    ("primary_dns", primary_dns), ("secondary_dns", secondary_dns)]

/-- The header row written by `to_csv` (src/main.py lines 83-93). -/
def to_csv_header : List String :=
  ["model", "serial", "location", "firmware", "hostname", "domain",
    "ip_address", "subnet", "gateway", "primary_dns", "secondary_dns"]

/-- The network environment of a GET exchange: (target, port, community,
requested object types) determine the outcome of the one request sent. -/
def GetNetwork := String → Nat → String → List String → SnmpOutcome

/-- The network environment of a SET exchange. -/
def SetNetwork := String → Nat → String → List (String × Raw) → SnmpOutcome

/-- `snmp_get` (src/main.py lines 10-45): build one GET request holding all
eleven attribute identifiers, send it to the target's management port
(default 161), and decode the single response with `fetch`. -/
def snmp_get (network : GetNetwork) (target : String) (communityname : String)
    (port : Nat := 161) : DeviceRecord :=
  fetch [network target port communityname (construct_object_types oids)] 1

/-- `snmp_set` (src/main.py lines 48-70): build one SET request from the
OID/value pairs, send it, and decode the single response with `fetch`. -/
def snmp_set (network : SetNetwork) (target : String)
    (value_pairs : List (String × Raw)) (communityname : String)
    (port : Nat := 161) : DeviceRecord :=
  fetch [network target port communityname (construct_value_pairs value_pairs)] 1

/-- C9: the attribute map is a constant with exactly the 11 entries model,
serial, location, firmware, hostname, domain, ip_address, subnet, gateway,
primary_dns, secondary_dns; every GET request enumerates exactly the 11
identifiers of the map in order; and the map's entry order equals the
canonical 11-column CSV export header order. -/
theorem attributeMap_spec :
    attributeMap.length = 11 ∧
    attributeMap.map Prod.fst = to_csv_header ∧
    attributeMap.map Prod.snd = oids ∧
    construct_object_types oids = oids ∧
    (construct_object_types oids).length = 11 ∧
    (∀ (network : GetNetwork) target community port,
      snmp_get network target community port =
        fetch [network target port community (construct_object_types oids)] 1) := by
  have h : construct_object_types oids = oids := foldl_append_singleton oids []
  exact ⟨rfl, rfl, rfl, h, by rw [h]; rfl, fun _ _ _ _ => rfl⟩

/-- C3: a GET or SET exchange decoded by `fetch` yields a non-empty record
only if both the transport-level error indication and the protocol-level
error status are absent/zero; an accepted response yields the items built
from its var-binds; any other outcome — a non-zero error status, a present
error indication, or a raised exception — yields the empty record, and
nothing is re-raised (`fetch` is a total function into `DeviceRecord`). -/
theorem fetch_accept_rule (o : SnmpOutcome) :
    (fetch [o] 1 ≠ [] →
      ∃ vbs, o = .resp none 0 vbs ∧ fetch [o] 1 = buildItems vbs) ∧
    (∀ vbs, o = .resp none 0 vbs → fetch [o] 1 = buildItems vbs) ∧
    (∀ ei es vbs, o = .resp ei es vbs → ¬(ei = none ∧ es = 0) → fetch [o] 1 = []) ∧
    (∀ msg, o = .exn msg → fetch [o] 1 = []) := by
  have hone : fetch [o] 1 = fetchStep [] o := rfl
  refine ⟨?_, ?_, ?_, ?_⟩
  · intro hne
    cases o with
    | exn m => exact absurd hone hne
    | resp ei es vbs =>
      by_cases h : ei = none ∧ es = 0
      · obtain ⟨he, hs⟩ := h
        subst he; subst hs
        exact ⟨vbs, rfl, by simp [hone, fetchStep]⟩
      · have hempty : fetchStep [] (SnmpOutcome.resp ei es vbs) = [] := by
          simp [fetchStep, h]
        exact absurd (hone.trans hempty) hne
  · rintro vbs rfl
    simp [hone, fetchStep]
  · rintro ei es vbs rfl h
    simp [hone, fetchStep, h]
  · rintro msg rfl
    rfl

/-- Witness for C3 at concrete exchanges: a present error indication, a
non-zero error status, and a raised exception each yield the empty record;
a clean response yields the record of casted var-bind values. -/
theorem fetch_accept_rule_witness :
    fetch [SnmpOutcome.resp (some "requestTimedOut") 0
      [("1.3.6.1.2.1.1.1.0", Raw.strVal "x")]] 1 = [] ∧
    fetch [SnmpOutcome.resp none 3 []] 1 = [] ∧
    fetch [SnmpOutcome.exn "timeout"] 1 = [] ∧
    fetch [SnmpOutcome.resp none 0 [("1.3.6.1.2.1.1.1.0", Raw.strVal "laser printer")]] 1 =
      [("1.3.6.1.2.1.1.1.0", CastedValue.Text "laser printer")] := by
  refine ⟨(fetch_accept_rule _).2.2.1 (some "requestTimedOut") 0 _ rfl (by simp),
    (fetch_accept_rule _).2.2.1 none 3 [] rfl (by simp),
    (fetch_accept_rule _).2.2.2 "timeout" rfl, ?_⟩
  have h := (fetch_accept_rule _).2.1 [("1.3.6.1.2.1.1.1.0", Raw.strVal "laser printer")] rfl
  rw [h]
  decide

/-- C7: a SET exchange the device accepts (error indication absent, error
status zero) returns the record built from the device's echoed var-binds —
the confirmed values keyed by identifier; a rejected or erroneous SET
exchange returns the empty record, with no partial-success signalling.
The request sent holds exactly the caller's identifier/value pairs. -/
theorem snmp_set_spec (network : SetNetwork) (target community : String) (port : Nat)
    (value_pairs : List (String × Raw)) :
    (∀ vbs, network target port community (construct_value_pairs value_pairs) =
        .resp none 0 vbs →
      snmp_set network target value_pairs community port = buildItems vbs) ∧
    (∀ ei es vbs, network target port community (construct_value_pairs value_pairs) =
        .resp ei es vbs → ¬(ei = none ∧ es = 0) →
      snmp_set network target value_pairs community port = []) ∧
    (∀ msg, network target port community (construct_value_pairs value_pairs) =
        .exn msg →
      snmp_set network target value_pairs community port = []) ∧
    construct_value_pairs value_pairs = value_pairs := by
  have hrun : ∀ o : SnmpOutcome, fetch [o] 1 = fetchStep [] o := fun _ => rfl
  refine ⟨?_, ?_, ?_, foldl_append_singleton value_pairs []⟩
  · intro vbs h
    show fetch [network target port community (construct_value_pairs value_pairs)] 1 = _
    rw [h, hrun]
    simp [fetchStep]
  · intro ei es vbs h hne
    show fetch [network target port community (construct_value_pairs value_pairs)] 1 = _
    rw [h, hrun]
    simp [fetchStep, hne]
  · intro msg h
    show fetch [network target port community (construct_value_pairs value_pairs)] 1 = _
    rw [h, hrun]
    rfl

/-- A device that accepts the location write and echoes the confirmed value
(response var-bind keys carry no leading dot, as `str(var_bind[0])` does). -/
def acceptingSetDevice : SetNetwork :=
  fun _ _ _ _ => .resp none 0 [("1.3.6.1.2.1.1.6.0", Raw.strVal "new location")]

/-- A device that rejects the write with a non-zero error status. -/
def rejectingSetDevice : SetNetwork :=
  fun _ _ _ _ => .resp none 5 []

/-- Witness for C7 at the spec's scenario: writing `"new location"` to the
location attribute against an accepting device yields a record whose
location field equals `"new location"`; against a rejecting device it
yields the empty record. -/
theorem snmp_set_spec_witness :
    snmp_set acceptingSetDevice "192.168.1.10"
        [(location, Raw.strVal "new location")] "public" 161 =
      [("1.3.6.1.2.1.1.6.0", CastedValue.Text "new location")] ∧
    dictLookup [("1.3.6.1.2.1.1.6.0", CastedValue.Text "new location")]
        "1.3.6.1.2.1.1.6.0" = some (CastedValue.Text "new location") ∧
    snmp_set rejectingSetDevice "192.168.1.10"
        [(location, Raw.strVal "new location")] "public" 161 = [] := by
  refine ⟨?_, by decide, ?_⟩
  · have h := (snmp_set_spec acceptingSetDevice "192.168.1.10" "public" 161
      [(location, Raw.strVal "new location")]).1
      [("1.3.6.1.2.1.1.6.0", Raw.strVal "new location")] rfl
    rw [h]
    decide
  · exact (snmp_set_spec rejectingSetDevice "192.168.1.10" "public" 161
      [(location, Raw.strVal "new location")]).2.1 none 5 [] rfl (by simp)

/-! ## Liveness probing (src/main.py lines 163-178) -/

/-- One entry of `response._responses` from pythonping: a timeout or
unreachable host is reported as an unsuccessful response entry, not an
exception. -/
structure PingResponse where
  success : Bool
deriving DecidableEq, Repr

/-- The external `ping` call: (host, count, timeout in milliseconds) to the
list of response entries of the one run. -/
def PingFn := String → Nat → Nat → List PingResponse

/-- The echo-request count `ping_check` passes to `ping` (`count=1`). -/
def pingCount : Nat := 1

/-- The timeout `ping_check` passes to `ping` (`timeout=0.5` seconds,
expressed in milliseconds to stay in integers). -/
def pingTimeoutMs : Nat := 500

/-- `ping_check` (src/main.py lines 163-178): one `ping(host, count=1,
timeout=0.5)` call; scan the responses and return true at the first
successful one, false otherwise. -/
def ping_check (pingFn : PingFn) (host : String) : Bool :=
  (pingFn host pingCount pingTimeoutMs).any (fun res => res.success)

/-- C8: the liveness probe sends exactly one echo request (`count = 1`) with
a 500 ms timeout, and returns true exactly when some response entry of that
single run is successful; timeouts and unreachable hosts appear as
unsuccessful entries, so they yield false rather than an exception
(`ping_check` is a total function into `Bool`; only the external address
parse inside `ping` itself can raise). -/
theorem ping_check_spec (pingFn : PingFn) (host : String) :
    (ping_check pingFn host = true ↔
      ∃ res ∈ pingFn host pingCount pingTimeoutMs, res.success = true) ∧
    pingCount = 1 ∧ pingTimeoutMs = 500 := by
  refine ⟨?_, rfl, rfl⟩
  simp [ping_check, List.any_eq_true]

/-- A probe run whose single response entry is a reply in time. -/
def oneReplyPing : PingFn := fun _ _ _ => [⟨true⟩]

/-- A probe run whose single response entry is a timeout. -/
def noReplyPing : PingFn := fun _ _ _ => [⟨false⟩]

/-- Witness for C8 at concrete probe runs: a replying host yields true, a
timing-out host yields false. -/
theorem ping_check_spec_witness :
    ping_check oneReplyPing "192.168.1.2" = true ∧
    ping_check noReplyPing "192.168.1.3" = false := by
  constructor
  · exact (ping_check_spec oneReplyPing "192.168.1.2").1.mpr
      ⟨⟨true⟩, by simp [oneReplyPing], rfl⟩
  · decide

/-! ## Address ranges and `ping_sweep` (src/main.py lines 181-210, 254-286) -/

/-- One octet of a dotted-decimal IPv4 address as `ipaddress.IPv4Address`
accepts it: one to three digits, no leading zero, value at most 255. -/
def parseOctet (l : List Char) : Option Nat :=
  if !l.isEmpty && l.length ≤ 3 && l.all Char.isDigit &&
      (l.length == 1 || l.headD ' ' != '0') then
    let n := digitsToNat l
    if n ≤ 255 then some n else none
  else none

/-- `int(ipaddress.IPv4Address(s))`: the 32-bit numeric value of a
dotted-quad address string, `none` when malformed (Python raises
`AddressValueError`). -/
def parseIPv4 (s : String) : Option Nat :=
  match (splitOnChar '.' s.data).mapM parseOctet with
  | some [a, b, c, d] => some (((a * 256 + b) * 256 + c) * 256 + d)
  | _ => none

/-- `str(ipaddress.IPv4Address(ip))` for `ip < 2^32`. -/
def natToIPv4String (ip : Nat) : String :=
  dottedQuad (ip / 16777216 % 256) (ip / 65536 % 256) (ip / 256 % 256) (ip % 256)

/-- The message of Python's float division by zero. -/
def zeroDivisionError : String := "ZeroDivisionError: float division by zero"

/-- The error raised for a malformed address string. -/
def addressValueError : String := "AddressValueError"

/-- `progressBar` (src/main.py lines 254-286) as the sequence it yields: on
first advance the generator computes `total = len(iterable)` and prints the
initial bar, whose percentage divides by `float(total)` — a
`ZeroDivisionError` when the iterable is empty.  With `total > 0` every
division succeeds and the generator yields exactly the items of the
iterable in order; the bar printing is I/O with no effect on the items. -/
def progressBar {α : Type} (iterable : List α) : Except String (List α) :=
  if iterable.length = 0 then .error zeroDivisionError else .ok iterable

/-- Python `range(a, b)` as a list. -/
def pyRange (a b : Nat) : List Nat := List.range' a (b - a)

/-- `ping_sweep` (src/main.py lines 181-210): parse the two bounds, iterate
`progressBar(range(start_ip, end_ip + 1))`, convert each number back to a
dotted-quad string and keep those that answer `ping_check`.  Exceptions
(malformed bounds; the progress bar's division by zero) propagate, modelled
by the `Except` matches; `silent` only gates summary printing. -/
def ping_sweep (pingFn : PingFn) (start end_ : String) (_silent : Bool) :
    Except String (List String) :=
  match parseIPv4 start with
  | none => .error addressValueError
  | some start_ip =>
    match parseIPv4 end_ with
    | none => .error addressValueError
    | some end_ip =>
      match progressBar (pyRange start_ip (end_ip + 1)) with
      | .error msg => .error msg
      | .ok ips =>
        .ok ((ips.map natToIPv4String).filter
          (fun address => ping_check pingFn address))

/-- How `ping_sweep` runs on parsed bounds: for `start ≤ end` it returns the
live subset of the enumerated ascending range; for `start > end` the
progress bar's initial division by `float(0)` raises. -/
theorem ping_sweep_run (pingFn : PingFn) (start end_ : String) (s e : Nat)
    (hs : parseIPv4 start = some s) (he : parseIPv4 end_ = some e) :
    (s ≤ e → ∀ silent, ping_sweep pingFn start end_ silent =
      Except.ok (((pyRange s (e + 1)).map natToIPv4String).filter
        (fun address => ping_check pingFn address))) ∧
    (e < s → ∀ silent, ping_sweep pingFn start end_ silent =
      Except.error zeroDivisionError) := by
  have hlen : (pyRange s (e + 1)).length = e + 1 - s := by
    simp [pyRange, List.length_range']
  constructor
  · intro hle silent
    have hnz : ¬(pyRange s (e + 1)).length = 0 := by rw [hlen]; omega
    simp [ping_sweep, hs, he, progressBar, hnz]
  · intro hlt silent
    have hz : (pyRange s (e + 1)).length = 0 := by rw [hlen]; omega
    simp [ping_sweep, hs, he, progressBar, hz]

/-- Counterexample to C2 as stated: for the concrete pair
`192.168.1.2` – `192.168.1.1` (start > end) `ping_sweep` does not return an
empty live-host list — the progress bar divides by the length of the empty
range and a `ZeroDivisionError` propagates. -/
theorem ping_sweep_start_after_end_raises :
    ping_sweep noReplyPing "192.168.1.2" "192.168.1.1" false =
      Except.error zeroDivisionError := by
  exact (ping_sweep_run noReplyPing "192.168.1.2" "192.168.1.1"
    3232235778 3232235777 (by decide) (by decide)).2 (by omega) false

/-- C2 (amended): for every valid start/end pair with start ≤ end,
`ping_sweep` enumerates exactly `end − start + 1` addresses in strictly
ascending numeric order and returns the live subset of them; for
start > end the enumeration is empty and `ping_sweep` raises the progress
bar's `ZeroDivisionError` instead of returning an empty list. -/
theorem ping_sweep_enumeration (pingFn : PingFn) (start end_ : String) (s e : Nat)
    (hs : parseIPv4 start = some s) (he : parseIPv4 end_ = some e) :
    (s ≤ e →
      (pyRange s (e + 1)).length = e - s + 1 ∧
      (pyRange s (e + 1)).Pairwise (· < ·) ∧
      ∀ silent, ping_sweep pingFn start end_ silent =
        Except.ok (((pyRange s (e + 1)).map natToIPv4String).filter
          (fun address => ping_check pingFn address))) ∧
    (e < s → ∀ silent, ping_sweep pingFn start end_ silent =
      Except.error zeroDivisionError) := by
  have hrun := ping_sweep_run pingFn start end_ s e hs he
  refine ⟨fun hle => ⟨?_, ?_, hrun.1 hle⟩, hrun.2⟩
  · show (List.range' s (e + 1 - s)).length = e - s + 1
    rw [List.length_range']
    omega
  · exact List.pairwise_lt_range' s (e + 1 - s) 1 (by omega)

/-- Witness for the amended C2 at the concrete range `10.0.0.1`–`10.0.0.3`
with every host answering: three addresses, ascending, all returned. -/
theorem ping_sweep_enumeration_witness :
    parseIPv4 "10.0.0.1" = some 167772161 ∧
    parseIPv4 "10.0.0.3" = some 167772163 ∧
    ping_sweep oneReplyPing "10.0.0.1" "10.0.0.3" false =
      Except.ok ["10.0.0.1", "10.0.0.2", "10.0.0.3"] := by
  refine ⟨by decide, by decide, ?_⟩
  have h := ((ping_sweep_enumeration oneReplyPing "10.0.0.1" "10.0.0.3"
    167772161 167772163 (by decide) (by decide)).1 (by omega)).2.2 false
  rw [h]
  have hv : ((pyRange 167772161 (167772163 + 1)).map natToIPv4String).filter
      (fun address => ping_check oneReplyPing address) =
      ["10.0.0.1", "10.0.0.2", "10.0.0.3"] := by decide
  rw [hv]

/-! ## The discovery collector (src/main.py lines 213-243) -/

/-- The body of `get_data` inside `get_device_info`: run one GET against the
host; when the record is non-empty, attach the originating address under
the key `response_address` (`data['response_address'] = host`) and hand the
record back for appending, otherwise skip (`snmp_get` never returns `None`,
so the `data is not None` guard never fires). -/
def attachRecord (network : GetNetwork) (communityname host : String) :
    Option DeviceRecord :=
  let data := snmp_get network host communityname
  if data.length > 0 then some (dictSet data "response_address" (.Text host))
  else none

/-- One iteration of the collection loop: append the attached record to
`results` when the host answered, else leave `results` unchanged. -/
def appendIfData (network : GetNetwork) (communityname : String)
    (results : List DeviceRecord) (host : String) : List DeviceRecord :=
  match attachRecord network communityname host with
  | some data => results ++ [data]
  | none => results

/-- The accumulation both branches of `get_device_info` perform over their
host sequence. -/
def collectRecords (network : GetNetwork) (communityname : String)
    (hosts : List String) : List DeviceRecord :=
  hosts.foldl (appendIfData network communityname) []

/-- `get_device_info` (src/main.py lines 213-243): in the default
(progress-reporting) mode the hosts are iterated through `progressBar`,
whose division by `len(hosts)` raises on an empty list; in silent mode the
plain list is iterated.  Either way each host is queried once, in input
order, and only non-empty records are appended. -/
def get_device_info (network : GetNetwork) (hosts : List String)
    (communityname : String) (silent : Bool) : Except String (List DeviceRecord) :=
  if !silent then
    match progressBar hosts with
    | .error msg => .error msg
    | .ok hs => .ok (collectRecords network communityname hs)
  else
    .ok (collectRecords network communityname hosts)

theorem collectRecords_eq_filterMap (network : GetNetwork) (communityname : String)
    (hosts : List String) :
    collectRecords network communityname hosts =
      hosts.filterMap (attachRecord network communityname) := by
  have key : ∀ (hs : List String) (acc : List DeviceRecord),
      hs.foldl (appendIfData network communityname) acc =
        acc ++ hs.filterMap (attachRecord network communityname) := by
    intro hs
    induction hs with
    | nil => intro acc; simp
    | cons a t ih =>
      intro acc
      cases hat : attachRecord network communityname a with
      | none => simp [List.foldl, List.filterMap_cons, appendIfData, hat, ih]
      | some r => simp [List.foldl, List.filterMap_cons, appendIfData, hat, ih]
  simpa using key hosts []

theorem attachRecord_props (network : GetNetwork) (communityname host : String)
    (r : DeviceRecord) (h : attachRecord network communityname host = some r) :
    r ≠ [] ∧ dictLookup r "response_address" = some (CastedValue.Text host) := by
  unfold attachRecord at h
  by_cases hlen : (snmp_get network host communityname).length > 0
  · simp only [hlen, if_true, Option.some.injEq] at h
    rw [← h]
    exact ⟨dictSet_ne_nil _ _ _, dictLookup_dictSet _ _ _⟩
  · simp [hlen] at h

theorem filterMap_attach_sublist (network : GetNetwork) (communityname : String)
    (hosts : List String) :
    ∃ answered : List String, answered.Sublist hosts ∧
      (hosts.filterMap (attachRecord network communityname)).map
          (fun r => dictLookup r "response_address") =
        answered.map (fun host => some (CastedValue.Text host)) := by
  induction hosts with
  | nil => exact ⟨[], List.Sublist.refl _, rfl⟩
  | cons a t ih =>
    obtain ⟨ans, hsub, hmap⟩ := ih
    cases hat : attachRecord network communityname a with
    | none => exact ⟨ans, hsub.cons a, by simp [List.filterMap_cons, hat, hmap]⟩
    | some r =>
      refine ⟨a :: ans, hsub.cons₂ a, ?_⟩
      simp [List.filterMap_cons, hat, hmap, (attachRecord_props _ _ _ _ hat).2]

/-- C4: whenever the discovery collector returns a result list (one GET per
candidate, in input order), that list contains only non-empty records, each
carrying its originating address under `response_address`; its length is at
most the candidate count, and the originating addresses form an
order-preserving subsequence of the input hosts. -/
theorem get_device_info_spec (network : GetNetwork) (hosts : List String)
    (communityname : String) (silent : Bool) (out : List DeviceRecord)
    (h : get_device_info network hosts communityname silent = .ok out) :
    out.length ≤ hosts.length ∧
    (∀ r ∈ out, r ≠ []) ∧
    ∃ answered : List String, answered.Sublist hosts ∧
      out.map (fun r => dictLookup r "response_address") =
        answered.map (fun host => some (CastedValue.Text host)) := by
  have hout : out = hosts.filterMap (attachRecord network communityname) := by
    rw [← collectRecords_eq_filterMap]
    cases silent with
    | true =>
      simp only [get_device_info, Bool.not_true, Bool.false_eq_true, if_false,
        Except.ok.injEq] at h
      exact h.symm
    | false =>
      cases hosts with
      | nil => simp [get_device_info, progressBar] at h
      | cons a t =>
        simp only [get_device_info, Bool.not_false, if_true, progressBar,
          List.length_cons] at h
        simp only [Nat.succ_ne_zero, if_false, Except.ok.injEq] at h
        exact h.symm
  subst hout
  refine ⟨List.length_filterMap_le _ _, ?_, filterMap_attach_sublist _ _ _⟩
  intro r hr
  obtain ⟨a, _, ha⟩ := List.mem_filterMap.mp hr
  exact (attachRecord_props _ _ _ _ ha).1

/-- A network on which only `10.0.0.2` answers (the spec's three-host
scenario); everything else times out. -/
def sparseNetwork : GetNetwork :=
  fun target _ _ _ =>
    if target = "10.0.0.2" then
      .resp none 0 [("1.3.6.1.2.1.1.1.0", Raw.strVal "MFP")]
    else .exn "No SNMP response received before timeout"

/-- Witness for C4 at the spec's scenario `10.0.0.1`–`10.0.0.3` with only
`.2` live: a one-element result holding only `.2`'s non-empty record,
tagged with its originating address. -/
theorem get_device_info_spec_witness :
    get_device_info sparseNetwork ["10.0.0.1", "10.0.0.2", "10.0.0.3"] "public" true =
      Except.ok [[("1.3.6.1.2.1.1.1.0", CastedValue.Text "MFP"),
        ("response_address", CastedValue.Text "10.0.0.2")]] ∧
    ([[("1.3.6.1.2.1.1.1.0", CastedValue.Text "MFP"),
        ("response_address", CastedValue.Text "10.0.0.2")]] : List DeviceRecord).length ≤
      (["10.0.0.1", "10.0.0.2", "10.0.0.3"] : List String).length ∧
    ([[("1.3.6.1.2.1.1.1.0", CastedValue.Text "MFP"),
        ("response_address", CastedValue.Text "10.0.0.2")]] : List DeviceRecord).map
        (fun r => dictLookup r "response_address") =
      [some (CastedValue.Text "10.0.0.2")] := by
  have hok : get_device_info sparseNetwork ["10.0.0.1", "10.0.0.2", "10.0.0.3"]
      "public" true =
      Except.ok [[("1.3.6.1.2.1.1.1.0", CastedValue.Text "MFP"),
        ("response_address", CastedValue.Text "10.0.0.2")]] := by rfl
  have h := get_device_info_spec sparseNetwork ["10.0.0.1", "10.0.0.2", "10.0.0.3"]
    "public" true _ hok
  exact ⟨hok, h.1, by decide⟩

/-! ## Serial-number lookup (src/main.py lines 246-251) -/

/-- The serial OID as `str(var_bind[0])` renders it — no leading dot — which
is the literal key line 249 reads. -/
def serialOidKey : String := "1.3.6.1.2.1.43.5.1.1.17.1"

/-- The `KeyError` raised by `data['1.3.6.1.2.1.43.5.1.1.17.1']` when a
collected record lacks the serial key. -/
def keyError : String := "KeyError: 1.3.6.1.2.1.43.5.1.1.17.1"

/-- Python `==` between a casted attribute value and the target serial
string: the FormattedAddress and Text variants are Python strs and compare
by content; an int or float never equals a str. -/
def pyEqStr : CastedValue → String → Bool
  | .FormattedAddress s, t => s == t
  | .Text s, t => s == t
  | _, _ => false

/-- The scan loop of `get_device_by_serial` (src/main.py lines 248-251):
return the first record whose serial attribute equals the target; fall off
the loop to `[]` (the distinguished not-found value) otherwise.  Reading
the serial key of a record that lacks it raises `KeyError`. -/
def findBySerialScan (serialnumber : String) :
    List DeviceRecord → Except String DeviceRecord
  | [] => .ok []
  | data :: rest =>
    match dictLookup data serialOidKey with
    | none => .error keyError
    | some v =>
      if pyEqStr v serialnumber then .ok data
      else findBySerialScan serialnumber rest

/-- `get_device_by_serial` (src/main.py lines 246-251): collect records from
all candidates first (silent mode — no early termination), then scan the
collected list linearly for the target serial. -/
def get_device_by_serial (network : GetNetwork) (serialnumber : String)
    (active_hosts : List String) (community : String) : Except String DeviceRecord :=
  match get_device_info network active_hosts community true with
  | .error msg => .error msg
  | .ok dataset => findBySerialScan serialnumber dataset

/-- A network on which every host answers with a non-empty record that does
not contain the serial attribute. -/
def answeringNoSerialNetwork : GetNetwork :=
  fun _ _ _ _ => .resp none 0 [("1.3.6.1.2.1.1.1.0", Raw.strVal "MFP")]

/-- Counterexample to C5 as stated: over the single candidate `10.0.0.1`,
which answers with a non-empty record lacking the serial attribute, no
collected record's serial matches — yet the lookup does not return the
not-found value: line 249's keyed read raises `KeyError`. -/
theorem get_device_by_serial_keyerror :
    get_device_by_serial answeringNoSerialNetwork "AA2K027512345" ["10.0.0.1"]
      "public" = Except.error keyError := by rfl

/-- C5 (amended): the identifier lookup first collects records from all
candidates (silently, with no early termination) and then linearly scans
the collected list: the first record whose present serial attribute equals
the target is returned; a non-matching record with a present serial is
skipped; the distinguished not-found value `[]` is returned when the
candidate set is empty or when every collected record carries a serial
attribute and none matches.  (A collected record lacking the serial
attribute instead raises `KeyError` — the case the counterexample shows.) -/
theorem get_device_by_serial_spec (network : GetNetwork)
    (serialnumber community : String) (active_hosts : List String) :
    (get_device_by_serial network serialnumber active_hosts community =
      findBySerialScan serialnumber (collectRecords network community active_hosts)) ∧
    (active_hosts = [] →
      get_device_by_serial network serialnumber active_hosts community = .ok []) ∧
    (∀ dataset : List DeviceRecord,
      (∀ r ∈ dataset, ∃ v, dictLookup r serialOidKey = some v ∧
        pyEqStr v serialnumber = false) →
      findBySerialScan serialnumber dataset = .ok []) ∧
    (∀ (data : DeviceRecord) (rest : List DeviceRecord) v,
      dictLookup data serialOidKey = some v → pyEqStr v serialnumber = true →
      findBySerialScan serialnumber (data :: rest) = .ok data) ∧
    (∀ (data : DeviceRecord) (rest : List DeviceRecord) v,
      dictLookup data serialOidKey = some v → pyEqStr v serialnumber = false →
      findBySerialScan serialnumber (data :: rest) =
        findBySerialScan serialnumber rest) := by
  refine ⟨rfl, ?_, ?_, ?_, ?_⟩
  · rintro rfl
    rfl
  · intro dataset hall
    induction dataset with
    | nil => rfl
    | cons d rest ih =>
      obtain ⟨v, hl, hne⟩ := hall d (List.mem_cons_self d rest)
      have := ih (fun r hr => hall r (List.mem_cons_of_mem d hr))
      simp [findBySerialScan, hl, hne, this]
  · intro data rest v hl ht
    simp [findBySerialScan, hl, ht]
  · intro data rest v hl hf
    simp [findBySerialScan, hl, hf]

/-- A network realising the spec's lookup scenario: three hosts answer, only
the second one's record carries the target serial. -/
def serialNetwork : GetNetwork :=
  fun target _ _ _ =>
    if target = "10.0.0.2" then
      .resp none 0 [("1.3.6.1.2.1.43.5.1.1.17.1", Raw.strVal "AA2K027512345")]
    else
      .resp none 0 [("1.3.6.1.2.1.43.5.1.1.17.1", Raw.strVal "XX00000000000")]

/-- Witness for the amended C5: over three answering hosts the lookup
returns the second host's record (serial match, originating address
attached); a serial no record carries yields the not-found value even
though every candidate answered; the empty candidate set yields not-found. -/
theorem get_device_by_serial_spec_witness :
    get_device_by_serial serialNetwork "AA2K027512345"
        ["10.0.0.1", "10.0.0.2", "10.0.0.3"] "public" =
      Except.ok [("1.3.6.1.2.1.43.5.1.1.17.1", CastedValue.Text "AA2K027512345"),
        ("response_address", CastedValue.Text "10.0.0.2")] ∧
    get_device_by_serial serialNetwork "ZZ99999999999"
        ["10.0.0.1", "10.0.0.2", "10.0.0.3"] "public" = Except.ok [] ∧
    get_device_by_serial serialNetwork "AA2K027512345" [] "public" = Except.ok [] := by
  refine ⟨?_, ?_, (get_device_by_serial_spec serialNetwork "AA2K027512345" "public" []).2.1 rfl⟩
  · rw [(get_device_by_serial_spec serialNetwork "AA2K027512345" "public"
      ["10.0.0.1", "10.0.0.2", "10.0.0.3"]).1]
    rfl
  · rw [(get_device_by_serial_spec serialNetwork "ZZ99999999999" "public"
      ["10.0.0.1", "10.0.0.2", "10.0.0.3"]).1]
    rfl

/-! ## Empty-input behaviour across the pipeline -/

/-- C10: on empty input the progress-bar wrapper divides by the sequence
length zero before yielding anything, so the range enumerator
(`ping_sweep`, whose range is empty when start > end) and the discovery
collector in progress-reporting mode both raise `ZeroDivisionError`
instead of returning an empty result list; only the silent path — used by
the serial lookup — returns an empty result for an empty candidate list. -/
theorem empty_input_zero_division (pingFn : PingFn) (network : GetNetwork)
    (community : String) :
    (∀ (start end_ : String) (s e : Nat) (silent : Bool),
      parseIPv4 start = some s → parseIPv4 end_ = some e → e < s →
      ping_sweep pingFn start end_ silent = .error zeroDivisionError) ∧
    get_device_info network [] community false = .error zeroDivisionError ∧
    get_device_info network [] community true = .ok [] ∧
    (∀ serialnumber, get_device_by_serial network serialnumber [] community = .ok []) := by
  refine ⟨?_, rfl, rfl, fun _ => rfl⟩
  intro start end_ s e silent hs he hlt
  exact (ping_sweep_run pingFn start end_ s e hs he).2 hlt silent

/-- Witness for C10 at concrete inputs: the inverted range
`192.168.1.10`–`192.168.1.1` raises through `ping_sweep`; the collector on
an empty host list raises in progress mode and returns `.ok []` silently;
the silent serial lookup returns not-found on no candidates. -/
theorem empty_input_zero_division_witness :
    ping_sweep noReplyPing "192.168.1.10" "192.168.1.1" true =
      Except.error zeroDivisionError ∧
    get_device_info sparseNetwork [] "public" false = Except.error zeroDivisionError ∧
    get_device_info sparseNetwork [] "public" true = Except.ok [] ∧
    get_device_by_serial sparseNetwork "AA2K027512345" [] "public" = Except.ok [] := by
  have h := empty_input_zero_division noReplyPing sparseNetwork "public"
  exact ⟨h.1 "192.168.1.10" "192.168.1.1" 3232235786 3232235777 true
      (by decide) (by decide) (by omega),
    h.2.1, h.2.2.1, h.2.2.2 "AA2K027512345"⟩

end MKTools
